import Mathlib

/-!
Verification of the movie CRUD API (`src/server.js`, mongoose-backed variant,
and `src/unnamed/part_000`, file-backed variant) against its natural-language
specification.  JavaScript strings are embedded as `List Char`; JavaScript
`undefined`/absent values as `Option`; the two HTTP token carriers as a pair
of `Option` raw strings.
-/

namespace Api0

/-! ## Token extraction (authentication middleware, server.js lines 48-64)

The middleware does `item.trim().split(' ')` and keeps the last element when
the split produced more than one piece, otherwise the first.  Note the split
separator is the single space character, exactly as in the source. -/

/-- JavaScript whitespace test for `String.prototype.trim` (space, tab, CR, LF
cover every character occurring in this development). -/
def jsWs (c : Char) : Bool :=
  c = ' ' || c = '\t' || c = '\r' || c = '\n'

/-- `item.trim()`: remove leading and trailing whitespace. -/
def jsTrim (s : List Char) : List Char :=
  ((s.dropWhile jsWs).reverse.dropWhile jsWs).reverse

/-- `str.split(' ')`: split on the space character.  JavaScript semantics:
`"".split(' ') = [""]`, separators at the ends or adjacent separators produce
empty pieces. -/
def jsSplitSpace : List Char → List (List Char)
  | [] => [[]]
  | c :: rest =>
    if c = ' ' then [] :: jsSplitSpace rest
    else
      match jsSplitSpace rest with
      | [] => [[c]]
      | p :: ps => (c :: p) :: ps

/-- Token extraction from a raw carrier value (server.js lines 50-53):
`splitted.length > 1 ? splitted[splitted.length - 1] : splitted[0]`. -/
def extractToken (item : List Char) : List Char :=
  if (jsSplitSpace (jsTrim item)).length > 1 then (jsSplitSpace (jsTrim item)).getLastD []
  else (jsSplitSpace (jsTrim item)).headD []

/-- The extraction the spec describes (§4.2, §6): split the raw value on
whitespace (any whitespace separator) and keep the final whitespace-delimited
token.  Stated from the spec's words, for comparison with `extractToken`. -/
def specExtractToken (item : List Char) : List Char :=
  ((item.splitOnP jsWs).filter (· ≠ [])).getLastD []

/-! ## Credential verifier (jsonwebtoken usage, server.js lines 55-60, 275-281)

Modelled from the spec: the signing/verification engine is the external
`jsonwebtoken` library, not code of this repository.  Per §3 and §4.1 of the
spec, a token carries a subject and an expiry instant and is signed with the
process secret; it is valid iff the signature verifies against the secret and
the current time is before the expiry. -/

/-- A decoded token payload: subject claim and expiry instant (seconds). -/
structure Payload where
  sub : String
  exp : Nat
deriving DecidableEq, Repr

/-- A signed token: payload plus the secret it was signed with (an abstract
rendering of "its signature verifies against exactly this secret"). -/
structure Token where
  payload : Payload
  signedWith : String
deriving DecidableEq, Repr

/-- Modelled from the spec: `issue(subject, ttl)` — `jwt.sign({sub}, secret,
{expiresIn})` (server.js lines 275-281) produces a token with expiry
`now + ttl`, signed with the process secret. -/
def issue (subject : String) (ttl : Nat) (now : Nat) (secret : String) : Token :=
  { payload := { sub := subject, exp := now + ttl }, signedWith := secret }

/-- Modelled from the spec: `verify(token)` — `jwt.verify(token, secret)`
(server.js line 56) succeeds iff the signature verifies against the secret
and the clock has not reached the expiry claim, returning the payload. -/
def verify (t : Token) (secret : String) (now : Nat) : Option Payload :=
  if t.signedWith = secret ∧ now < t.payload.exp then some t.payload else none

/-! ## Identity resolver (authentication middleware, server.js lines 39-73)

The middleware maps the two carriers (cookie, then header) through
`jwt.verify`, then picks `data.find((element) => typeof element === 'object')`
and sets `res.locals.user = session ? { _id: session.sub } : null`.
The JavaScript values flowing through `data` are either `null` or a decoded
payload object; crucially `typeof null === 'object'`. -/

/-- A JavaScript value in the middleware's `data` array: `null` (absent
carrier / failed verification) or a decoded payload object. -/
inductive JsVal where
  | jnull : JsVal
  | jobj : Payload → JsVal
deriving DecidableEq, Repr

/-- `typeof element === 'object'`: true for objects and — a JavaScript
peculiarity — also for `null`. -/
def typeofIsObject : JsVal → Bool
  | JsVal.jnull => true
  | JsVal.jobj _ => true

/-- JavaScript truthiness of a `data` element: `null` is falsy, an object is
truthy. -/
def jsTruthy : JsVal → Bool
  | JsVal.jnull => false
  | JsVal.jobj _ => true

/-- The resolved per-request user: `{ _id: session.sub }` or `null`. -/
structure User where
  _id : String
deriving DecidableEq, Repr

/-- One arm of the `.map` over carriers (server.js lines 48-64): absent or
empty carrier gives `null`; otherwise extract the token from the raw value and
attempt verification, `null` on failure.  The raw-string-to-token decoding is
abstracted as a `decode` argument since the wire format lives in the external
library. -/
def mapCarrier (decode : List Char → Option Token) (secret : String) (now : Nat)
    (item : Option (List Char)) : JsVal :=
  match item with
  | none => JsVal.jnull
  | some s =>
    -- `if(item)`: the empty string is falsy in JavaScript.
    if s = [] then JsVal.jnull
    else
      match decode (extractToken s) with
      | none => JsVal.jnull
      | some t =>
        match verify t secret now with
        | some payload => JsVal.jobj payload
        | none => JsVal.jnull

/-- The authentication middleware (server.js lines 39-73): build `data` from
the cookie carrier then the header carrier, `find` the first element with
`typeof element === 'object'`, and derive `res.locals.user`. -/
def resolve (decode : List Char → Option Token) (secret : String) (now : Nat)
    (cookie header : Option (List Char)) : Option User :=
  let data : List JsVal :=
    [cookie, header].map (mapCarrier decode secret now)
  let session : Option JsVal := data.find? (fun element => typeofIsObject element)
  match session with
  | some v => if jsTruthy v then
      match v with
      | JsVal.jobj payload => some { _id := payload.sub }
      | JsVal.jnull => none
    else none
  | none => none

/-- The resolver the spec describes (§4.2): try each carrier in precedence
order through the verifier, return the first valid identity, else none.
Stated from the spec's words, for comparison with `resolve`. -/
def specResolve (decode : List Char → Option Token) (secret : String) (now : Nat)
    (cookie header : Option (List Char)) : Option User :=
  let tryCarrier : Option (List Char) → Option User := fun item =>
    match item with
    | none => none
    | some s =>
      match decode (specExtractToken s) with
      | none => none
      | some t =>
        match verify t secret now with
        | some payload => some { _id := payload.sub }
        | none => none
  match tryCarrier cookie with
  | some u => some u
  | none => tryCarrier header

/-! ## Error classifier (server.js lines 151-167) -/

/-- One entry of a mongoose `ValidationError`'s `errors` map: the declared
`kind` of the per-field failure (`"unique"` for the uniqueness plugin,
`"required"`, a type name, ...). -/
structure ErrEntry where
  kind : String
deriving DecidableEq, Repr

/-- A store/validation failure as the classifier sees it: the declared error
`name` and the per-field entries. -/
structure JsError where
  name : String
  errors : List ErrEntry
deriving DecidableEq, Repr

/-- `getStatusCode` (server.js lines 151-167), embedded exactly: start at 500;
if `err.name === "ValidationError"` set 400, then loop over the entries and
set 409 whenever one has `kind === "unique"`. -/
def getStatusCode (err : JsError) : Nat :=
  let status := 500
  if err.name = "ValidationError" then
    let status := 400
    err.errors.foldl
      (fun status property => if property.kind = "unique" then 409 else status)
      status
  else status

/-! ## File-backed movie store (src/unnamed/part_000)

The collection is a JavaScript array of records `{title, description, year,
director, producer, id}` whose fields come from request bodies and may be
`undefined` (`Option`).  `db_save` either resolves or rejects; handlers are
embedded as functions of the collection, the request data and the outcome of
the save (`saveOk`), returning the HTTP effect and the new in-memory
collection. -/

/-- A record of the file-backed collection (part_000 line 124): every field is
taken verbatim from the request body, hence possibly absent. -/
structure P0Movie where
  title : Option String
  description : Option String
  year : Option Int
  director : Option String
  producer : Option String
  id : Option String
deriving DecidableEq, Repr

/-- A parsed request body for the file-backed handlers (destructured fields,
each possibly `undefined`). -/
structure P0Body where
  title : Option String
  description : Option String
  year : Option Int
  director : Option String
  producer : Option String
  id : Option String
deriving DecidableEq, Repr

/-- The HTTP effect of a file-backed handler. -/
inductive P0Out where
  /-- `res.status(201).json(movie)` -/
  | created (m : P0Movie)
  /-- `res.status(409).json({code, message})` -/
  | conflict
  /-- `res.status(404).json({code: 404, message: "Not Found"})` -/
  | notFound
  /-- `res.status(204).end()` -/
  | noContent
  /-- `res.json(movie)` (status 200) -/
  | okJson (m : P0Movie)
  /-- the handler finished without sending any response -/
  | silent
deriving DecidableEq, Repr

/-- `findMovieById` (part_000 lines 74-78): `_.find(movies, item => item.id
=== id)`.  The argument is a JavaScript value, possibly `undefined`; in
JavaScript `undefined === undefined` holds. -/
def findMovieById (movies : List P0Movie) (id : Option String) : Option P0Movie :=
  movies.find? (fun item => item.id = id)

/-- JavaScript truthiness of an array value: every object, the empty array
included, is truthy. -/
def jsArrayTruthy (_l : List P0Movie) : Bool := true

/-- `POST /movies` (part_000 lines 112-147): conflict if `findMovieById(id)`
finds a record with the body's `id` (note: the lookup key is the
caller-supplied `id`, not the title); otherwise push the record, then
`db_save`; on save success respond 201, on save failure only
`console.error` runs — no response, no rollback of the push. -/
def part000Create (movies : List P0Movie) (body : P0Body) (saveOk : Bool) :
    P0Out × List P0Movie :=
  match findMovieById movies body.id with
  | some _ => (P0Out.conflict, movies)
  | none =>
    let movie : P0Movie :=
      { title := body.title, description := body.description, year := body.year,
        director := body.director, producer := body.producer, id := body.id }
    let movies' := movies ++ [movie]
    if saveOk then (P0Out.created movie, movies')
    else (P0Out.silent, movies')

/-- Mutate the first element satisfying `p` (the in-place field assignment on
the single object returned by `_.find`). -/
def mutateFirst (p : P0Movie → Bool) (f : P0Movie → P0Movie) :
    List P0Movie → List P0Movie
  | [] => []
  | x :: xs => if p x then f x :: xs else x :: mutateFirst p f xs

/-- `PUT /movies/:id` (part_000 lines 149-172): look the record up by the
route id; if present overwrite its fields from the body (the `id` field is
not reassigned), then `db_save().then(204)` with no rejection handler — on
save failure nothing is sent and the mutation stays; if absent respond 404. -/
def part000Update (movies : List P0Movie) (id : String) (body : P0Body)
    (saveOk : Bool) : P0Out × List P0Movie :=
  match findMovieById movies (some id) with
  | some _ =>
    let movies' := mutateFirst (fun item => item.id = some id)
      (fun item =>
        { title := body.title, description := body.description, year := body.year,
          director := body.director, producer := body.producer, id := item.id })
      movies
    if saveOk then (P0Out.noContent, movies')
    else (P0Out.silent, movies')
  | none => (P0Out.notFound, movies)

/-- `DELETE /movies/:id` (part_000 lines 174-191): `_.remove` deletes every
matching record in place and returns the array of removed records;
`if(removed)` tests the truthiness of that array — which is always truthy in
JavaScript, even when empty. -/
def part000Delete (movies : List P0Movie) (id : String) (saveOk : Bool) :
    P0Out × List P0Movie :=
  let removed := movies.filter (fun item => item.id = some id)
  let movies' := movies.filter (fun item => !(item.id = some id))
  if jsArrayTruthy removed then
    if saveOk then (P0Out.noContent, movies') else (P0Out.silent, movies')
  else (P0Out.notFound, movies)

/-- `GET /movies/:id` (part_000 lines 97-110). -/
def part000Get (movies : List P0Movie) (id : String) : P0Out :=
  match findMovieById movies (some id) with
  | some movie => P0Out.okJson movie
  | none => P0Out.notFound

/-! ## Database-backed movie store (server.js, mongoose variant)

Modelled from the spec: the validation and persistence engine is the external
`mongoose` library; the model follows the schema declarations in src
(server.js lines 119-147 — `title` required unique String, `description`
String defaulting to `""`, `year` required Number, `director` required
String, `producers` required `[String]`, plus the unique-validator plugin
turning a title collision into a `ValidationError` whose entry has kind
`"unique"`) and §4.3 of the spec (the store assigns a fresh id at creation;
ids are never reused).  A body field that is missing or fails the declared
type cast is `none`. -/

/-- A persisted movie document; `_id` is assigned by the store. -/
structure MovieDoc where
  _id : Nat
  title : String
  description : String
  year : Int
  director : String
  producers : List String
deriving DecidableEq, Repr

/-- The store's state: the documents plus the next fresh id (ids are
monotonically increasing and never reused). -/
structure MStore where
  docs : List MovieDoc
  nextId : Nat
deriving DecidableEq, Repr

/-- Request body for the mongoose handlers after destructuring (server.js
line 214): `{title, description, year, director, producers}` — there is no
`id` field at all; `none` means missing or wrong-typed. -/
structure MBody where
  title : Option String
  description : Option String
  year : Option Int
  director : Option String
  producers : Option (List String)
deriving DecidableEq, Repr

/-- The `ValidationError` raised when a required field is missing or fails
its type cast. -/
def requiredErr : JsError := { name := "ValidationError", errors := [{ kind := "required" }] }

/-- The `ValidationError` raised by the unique-validator plugin on a title
collision. -/
def uniqueErr : JsError := { name := "ValidationError", errors := [{ kind := "unique" }] }

/-- Modelled from the spec: `Movie.create` (server.js line 216) under the
schema declarations — reject with a required-kind `ValidationError` when a
required field is missing/wrong-typed, with a unique-kind `ValidationError`
when the title collides with an existing document, and otherwise insert a new
document whose `_id` the store assigns. -/
def mongooseCreate (s : MStore) (b : MBody) : (MovieDoc ⊕ JsError) × MStore :=
  match b.title, b.year, b.director, b.producers with
  | some title, some year, some director, some producers =>
    if s.docs.any (fun d => d.title = title) then (Sum.inr uniqueErr, s)
    else
      let doc : MovieDoc :=
        { _id := s.nextId, title := title, description := b.description.getD "",
          year := year, director := director, producers := producers }
      (Sum.inl doc, { docs := s.docs ++ [doc], nextId := s.nextId + 1 })
  | _, _, _, _ => (Sum.inr requiredErr, s)

/-- The outcome of `Movie.findById(id).exec()` as the GET handler sees it:
a document, `null`, or a rejection (cast error on a malformed id, storage
fault). -/
inductive Lookup where
  | found (m : MovieDoc)
  | missing
  | failed (e : JsError)
deriving DecidableEq, Repr

/-- A response of the mongoose GET handler. -/
inductive SResp where
  /-- `res.json(movie)` (status 200) -/
  | okJson (m : MovieDoc)
  /-- `res.status(404).json({code: 404, message: "Not Found"})` -/
  | notFoundJson
  /-- `res.status(getStatusCode(err)).json(err)` -/
  | errJson (status : Nat)
deriving DecidableEq, Repr

/-- `GET /movies/:id` (server.js lines 192-210): 200 with the document, 404
with `{code, message}`, or — in the `catch` branch — the classifier's status. -/
def serverGetMovie : Lookup → SResp
  | Lookup.found m => SResp.okJson m
  | Lookup.missing => SResp.notFoundJson
  | Lookup.failed e => SResp.errJson (getStatusCode e)

/-- The HTTP status carried by a GET-handler response. -/
def SResp.status : SResp → Nat
  | SResp.okJson _ => 200
  | SResp.notFoundJson => 404
  | SResp.errJson s => s

/-! ## Express response object (DELETE /auth/token, server.js lines 296-298) -/

/-- The observable state of an Express response object: status/body/end
effects and the cookies cleared so far. -/
structure ResState where
  statusCode : Option Nat
  bodySent : Bool
  ended : Bool
  clearedCookies : List String
deriving DecidableEq, Repr

/-- A fresh response object: nothing sent yet. -/
def freshRes : ResState :=
  { statusCode := none, bodySent := false, ended := false, clearedCookies := [] }

/-- `res.clearCookie(name)`. -/
def clearCookie (name : String) (r : ResState) : ResState :=
  { r with clearedCookies := r.clearedCookies ++ [name] }

/-- `res.status(code)`. -/
def setStatus (code : Nat) (r : ResState) : ResState :=
  { r with statusCode := some code }

/-- `res.json(body)` / `res.end()`: the response is sent. -/
def endRes (withBody : Bool) (r : ResState) : ResState :=
  { r with ended := true, bodySent := r.bodySent || withBody }

/-- The `DELETE /auth/token` handler (server.js lines 296-298): its entire
body is `res.clearCookie('authorization')`. -/
def deleteAuthToken (r : ResState) : ResState :=
  clearCookie "authorization" r

/-! ## Concrete demonstration values -/

/-- A token issued for subject "alice" with ttl 3600 at time 0, signed with
the process secret from server.js line 14. -/
def demoToken : Token := issue "alice" 3600 0 "ChangeMe!"

/-- A concrete wire decoder: the character string "T" decodes to `demoToken`,
anything else is malformed. -/
def demoDecode (s : List Char) : Option Token :=
  if s = String.toList "T" then some demoToken else none

/-- A movie record of the file-backed collection with id "1". -/
def recDune1 : P0Movie :=
  { title := some "Dune", description := some "", year := some 2021,
    director := some "Villeneuve", producer := some "X", id := some "1" }

/-- The same movie fields with id "2". -/
def recDune2 : P0Movie :=
  { title := some "Dune", description := some "", year := some 2021,
    director := some "Villeneuve", producer := some "X", id := some "2" }

/-- A request body carrying `recDune1`'s fields. -/
def bodyDune1 : P0Body :=
  { title := some "Dune", description := some "", year := some 2021,
    director := some "Villeneuve", producer := some "X", id := some "1" }

/-- A request body with the same title as `bodyDune1` but id "2". -/
def bodyDune2 : P0Body :=
  { title := some "Dune", description := some "", year := some 2021,
    director := some "Villeneuve", producer := some "X", id := some "2" }

/-- An update body renaming the movie. -/
def bodySequel : P0Body :=
  { title := some "Dune Part Two", description := some "", year := some 2024,
    director := some "Villeneuve", producer := some "X", id := none }

/-- `recDune1` after the fields of `bodySequel` are written over it (the `id`
field is kept). -/
def recSequel : P0Movie :=
  { title := some "Dune Part Two", description := some "", year := some 2024,
    director := some "Villeneuve", producer := some "X", id := some "1" }

/-- A request body with every field missing except a caller-supplied id. -/
def emptyBody : P0Body :=
  { title := none, description := none, year := none,
    director := none, producer := none, id := some "z" }

/-- The record the file-backed create stores for `emptyBody`. -/
def emptyRec : P0Movie :=
  { title := none, description := none, year := none,
    director := none, producer := none, id := some "z" }

/-- The rejection `Movie.findById` produces on an id that does not parse as
an ObjectId. -/
def castErr : JsError := { name := "CastError", errors := [] }

/-- A valid mongoose-variant request body. -/
def mBodyDune : MBody :=
  { title := some "Dune", description := none, year := some 2021,
    director := some "Villeneuve", producers := some ["X"] }

/-- The empty mongoose store. -/
def mStore0 : MStore := { docs := [], nextId := 0 }

/-! ## Helper lemmas -/

/-- In JavaScript `typeof null === 'object'`, so the middleware's find
predicate holds of every element of `data`. -/
theorem typeofIsObject_eq_true (v : JsVal) : typeofIsObject v = true := by
  cases v <;> rfl

/-- The middleware's result depends only on the cookie carrier: `find` stops
at the first element of `data`, which is the cookie slot, whether it is a
decoded payload or `null`. -/
theorem resolve_eq_cookie_only (decode : List Char → Option Token) (secret : String)
    (now : Nat) (cookie header : Option (List Char)) :
    resolve decode secret now cookie header =
      match mapCarrier decode secret now cookie with
      | JsVal.jobj payload => some { _id := payload.sub }
      | JsVal.jnull => none := by
  unfold resolve
  cases hm : mapCarrier decode secret now cookie with
  | jnull => simp [List.find?, hm, typeofIsObject, jsTruthy]
  | jobj payload => simp [List.find?, hm, typeofIsObject, jsTruthy]

/-- The classifier's entry loop computes "some entry has kind unique". -/
theorem foldl_unique_status (l : List ErrEntry) (st : Nat) :
    l.foldl (fun status property => if property.kind = "unique" then 409 else status) st
      = if l.any (fun p => p.kind = "unique") then 409 else st := by
  induction l generalizing st with
  | nil => simp
  | cons p ps ih =>
    by_cases h : p.kind = "unique" <;> simp [h, ih]

/-! ## Claim theorems -/

/-- C1: the identity resolver never falls back to the header carrier.
Because `typeof null === 'object'`, the middleware's `find` always stops at
the cookie slot of `data`: the result is invariant under the header carrier,
and with an absent cookie and a header carrying a valid token the resolved
user is `none`, although the spec's resolver derives the identity from the
header token. -/
theorem resolve_ignores_header_bug :
    (∀ (decode : List Char → Option Token) (secret : String) (now : Nat)
        (cookie h₁ h₂ : Option (List Char)),
        resolve decode secret now cookie h₁ = resolve decode secret now cookie h₂) ∧
    resolve demoDecode "ChangeMe!" 1 none (some (String.toList "Bearer T")) = none ∧
    specResolve demoDecode "ChangeMe!" 1 none (some (String.toList "Bearer T"))
      = some { _id := "alice" } := by
  refine ⟨fun decode secret now cookie h₁ h₂ => ?_, ?_, ?_⟩
  · rw [resolve_eq_cookie_only, resolve_eq_cookie_only]
  · decide
  · decide

/-- C3: on a durable-write failure the file-backed create keeps the pushed
record in the in-memory collection (no rollback) and sends no response at all
(no `internal` classification); the update handler likewise keeps the in-place
mutation and stays silent. -/
theorem part000_save_failure_no_rollback :
    part000Create [] bodyDune1 false = (P0Out.silent, [recDune1]) ∧
    (part000Create [] bodyDune1 false).2 ≠ ([] : List P0Movie) ∧
    part000Update [recDune1] "1" bodySequel false = (P0Out.silent, [recSequel]) ∧
    (part000Update [recDune1] "1" bodySequel false).2 ≠ [recDune1] := by
  refine ⟨by decide, by decide, by decide, by decide⟩

/-- C4: the file-backed delete responds 204 (success) for an id with no
corresponding record, because the array returned by the remove call is truthy
even when empty; the 404 branch is unreachable. -/
theorem part000_delete_missing_returns_success :
    part000Delete [] "x" true = (P0Out.noContent, []) ∧
    part000Delete [recDune1] "x" true = (P0Out.noContent, [recDune1]) ∧
    part000Delete [recDune1] "x" true ≠ (P0Out.notFound, [recDune1]) := by
  refine ⟨by decide, by decide, by decide⟩

/-- C5: the error classifier is a total function of the declared error name
and per-entry kinds: a ValidationError with a unique-kind entry maps to 409,
a ValidationError with no unique-kind entry (required field missing / type
cast failure) maps to 400, and every other failure maps to 500. -/
theorem getStatusCode_pure_kind_mapping (e : JsError) :
    getStatusCode e =
      if e.name = "ValidationError" then
        if e.errors.any (fun p => p.kind = "unique") then 409 else 400
      else 500 := by
  unfold getStatusCode
  by_cases h : e.name = "ValidationError"
  · simp [h, foldl_unique_status]
  · simp [h]

/-- C6: round trip of the credential verifier — for any subject and positive
ttl, a token issued at `now` verifies at any instant strictly before
`now + ttl` and yields the subject back; at or after the expiry instant
verification returns none; immediately after issuance the subject is
recovered. -/
theorem verify_issue_roundtrip (s : String) (ttl now t : Nat) (secret : String)
    (httl : 0 < ttl) :
    (t < now + ttl →
      verify (issue s ttl now secret) secret t = some { sub := s, exp := now + ttl }) ∧
    (now + ttl ≤ t → verify (issue s ttl now secret) secret t = none) ∧
    (verify (issue s ttl now secret) secret now).map Payload.sub = some s := by
  refine ⟨fun h => ?_, fun h => ?_, ?_⟩
  · simp [issue, verify, h]
  · simp [issue, verify, show ¬ t < now + ttl by omega]
  · simp [issue, verify, show now < now + ttl by omega]

/-- C6 witness: concrete instantiation at subject "alice", ttl 3600, issuance
time 0, verification time 10. -/
theorem verify_issue_roundtrip_witness :
    0 < 3600 ∧ (10 : Nat) < 0 + 3600 ∧
    verify (issue "alice" 3600 0 "ChangeMe!") "ChangeMe!" 10
      = some { sub := "alice", exp := 0 + 3600 } :=
  ⟨by decide, by decide,
    (verify_issue_roundtrip "alice" 3600 0 10 "ChangeMe!" (by decide)).1 (by decide)⟩

/-- C10: the DELETE /auth/token handler records the clear-cookie directive
for the authorization cookie but sets no status, sends no body and never ends
the response. -/
theorem deleteAuthToken_no_response :
    (∀ r : ResState,
      (deleteAuthToken r).statusCode = r.statusCode ∧
      (deleteAuthToken r).bodySent = r.bodySent ∧
      (deleteAuthToken r).ended = r.ended ∧
      (deleteAuthToken r).clearedCookies = r.clearedCookies ++ ["authorization"]) ∧
    deleteAuthToken freshRes =
      { statusCode := none, bodySent := false, ended := false,
        clearedCookies := ["authorization"] } :=
  ⟨fun r => ⟨rfl, rfl, rfl, rfl⟩, rfl⟩

/-- C2 counterexample: in the file-backed variant two creates with the same
title but distinct caller-supplied ids both succeed, leaving two records that
share the title "Dune"; the second colliding-title create does not yield
conflict. -/
theorem part000_title_collision_cex :
    part000Create [] bodyDune1 true = (P0Out.created recDune1, [recDune1]) ∧
    part000Create [recDune1] bodyDune2 true
      = (P0Out.created recDune2, [recDune1, recDune2]) ∧
    recDune1.title = recDune2.title ∧ recDune1 ≠ recDune2 ∧
    part000Create [recDune1] bodyDune2 true ≠ (P0Out.conflict, [recDune1]) := by
  refine ⟨by decide, by decide, by decide, by decide, by decide⟩

/-- C2 amended: the file-backed create enforces uniqueness on the
caller-supplied id, not the title — a create whose id equals the id of an
existing record fails with conflict and leaves the collection unchanged, and
id-distinctness is preserved by every create; title collisions are not
rejected (the database-backed schema, by contrast, declares the title
unique). -/
theorem part000_id_uniqueness_amended :
    (∀ (movies : List P0Movie) (body : P0Body) (saveOk : Bool),
        (∃ m ∈ movies, m.id = body.id) →
          part000Create movies body saveOk = (P0Out.conflict, movies)) ∧
    (∀ (movies : List P0Movie) (body : P0Body) (saveOk : Bool),
        movies.Pairwise (fun a b => a.id ≠ b.id) →
          (part000Create movies body saveOk).2.Pairwise (fun a b => a.id ≠ b.id)) := by
  constructor
  · intro movies body saveOk h
    obtain ⟨m, hmem, hid⟩ := h
    have hfind : (findMovieById movies body.id).isSome := by
      rw [findMovieById, List.find?_isSome]
      exact ⟨m, hmem, by simp [hid]⟩
    unfold part000Create
    cases hf : findMovieById movies body.id with
    | none => rw [hf] at hfind; simp at hfind
    | some _ => rfl
  · intro movies body saveOk h
    unfold part000Create
    cases hf : findMovieById movies body.id with
    | some m => exact h
    | none =>
      have hfresh : ∀ m ∈ movies, m.id ≠ body.id := by
        intro m hm
        have := List.find?_eq_none.mp hf m hm
        simpa using this
      have hpw : (movies ++ [P0Movie.mk body.title body.description body.year
          body.director body.producer body.id]).Pairwise (fun a b => a.id ≠ b.id) := by
        rw [List.pairwise_append]
        refine ⟨h, List.pairwise_singleton _ _, ?_⟩
        intro a ha b hb
        simp at hb
        subst hb
        exact hfresh a ha
      cases saveOk <;> simpa using hpw

/-- C2 witness: a create whose id collides with the stored record's id yields
conflict and leaves the collection unchanged. -/
theorem part000_id_uniqueness_amended_witness :
    (∃ m ∈ [recDune1], m.id = bodyDune1.id) ∧
    part000Create [recDune1] bodyDune1 true = (P0Out.conflict, [recDune1]) :=
  ⟨by decide, part000_id_uniqueness_amended.1 [recDune1] bodyDune1 true (by decide)⟩

/-- C7 counterexample: the file-backed create performs no validation and
takes the id from the caller's body — a create with every required field
missing and a caller-supplied id succeeds and stores the record under the
caller's id. -/
theorem part000_create_caller_id_cex :
    part000Create [] emptyBody true = (P0Out.created emptyRec, [emptyRec]) ∧
    emptyRec.id = emptyBody.id ∧ emptyRec.title = none ∧
    (part000Create [] emptyBody true).2 ≠ ([] : List P0Movie) := by
  refine ⟨by decide, by decide, by decide, by decide⟩

/-- C7 amended: in the database-backed variant the store assigns the new
record's id (the body carries no id at all) and a create missing a required
field fails with a validation error classified 400 without touching the
store; in the file-backed variant the stored id is the caller-supplied body
id and no validation occurs. -/
theorem create_id_assignment_amended :
    (∀ (s : MStore) (b : MBody),
        (b.title = none ∨ b.year = none ∨ b.director = none ∨ b.producers = none) →
          mongooseCreate s b = (Sum.inr requiredErr, s)) ∧
    getStatusCode requiredErr = 400 ∧
    (∀ (s : MStore) (b : MBody) (title : String) (year : Int) (director : String)
        (producers : List String),
        b.title = some title → b.year = some year → b.director = some director →
        b.producers = some producers →
        (∀ d ∈ s.docs, d.title ≠ title) →
          ∃ doc : MovieDoc,
            mongooseCreate s b
              = (Sum.inl doc, { docs := s.docs ++ [doc], nextId := s.nextId + 1 }) ∧
            doc._id = s.nextId) ∧
    (∀ (movies : List P0Movie) (body : P0Body) (saveOk : Bool),
        findMovieById movies body.id = none →
          ∃ m : P0Movie, (part000Create movies body saveOk).2 = movies ++ [m] ∧
            m.id = body.id) := by
  refine ⟨?_, by decide, ?_, ?_⟩
  · intro s b h
    cases ht : b.title <;> cases hy : b.year <;> cases hd : b.director <;>
      cases hp : b.producers <;> simp_all [mongooseCreate]
  · intro s b title year director producers ht hy hd hp hfresh
    have hany : s.docs.any (fun d => d.title = title) = false := by
      simp only [List.any_eq_false, decide_eq_true_eq]
      intro d hdmem
      simpa using hfresh d hdmem
    refine ⟨MovieDoc.mk s.nextId title (b.description.getD "") year director producers,
      ?_, rfl⟩
    simp [mongooseCreate, ht, hy, hd, hp, hany]
  · intro movies body saveOk hf
    unfold part000Create
    rw [hf]
    cases saveOk <;> exact ⟨_, rfl, rfl⟩

/-- C7 witness: a valid create on the empty store assigns id 0 to the new
document. -/
theorem create_id_assignment_amended_witness :
    ∃ doc : MovieDoc,
      mongooseCreate mStore0 mBodyDune
        = (Sum.inl doc, { docs := mStore0.docs ++ [doc], nextId := mStore0.nextId + 1 }) ∧
      doc._id = mStore0.nextId :=
  create_id_assignment_amended.2.2.1 mStore0 mBodyDune "Dune" 2021 "Villeneuve" ["X"]
    rfl rfl rfl rfl (by simp [mStore0])

/-- C8 counterexample: when the lookup promise rejects (a malformed id fails
the ObjectId cast), the GET handler's catch branch responds with the
classifier's status 500 — neither 200 nor 404. -/
theorem serverGet_castError_500_cex :
    (serverGetMovie (Lookup.failed castErr)).status = 500 ∧
    (serverGetMovie (Lookup.failed castErr)).status ≠ 200 ∧
    (serverGetMovie (Lookup.failed castErr)).status ≠ 404 := by
  refine ⟨by decide, by decide, by decide⟩

/-- C8 amended: while the lookup completes, GET /movies/:id responds 200 with
a stored record whose id matches, or 404; when the backend lookup fails the
response carries the classifier's status instead.  The file-backed variant
always completes and produces only the 200/404 dichotomy. -/
theorem get_route_status_amended :
    (∀ (movies : List P0Movie) (id : String),
        (∃ m, part000Get movies id = P0Out.okJson m ∧ m ∈ movies ∧ m.id = some id) ∨
          part000Get movies id = P0Out.notFound) ∧
    (∀ m : MovieDoc, (serverGetMovie (Lookup.found m)).status = 200) ∧
    (serverGetMovie Lookup.missing).status = 404 ∧
    (∀ e : JsError, serverGetMovie (Lookup.failed e) = SResp.errJson (getStatusCode e)) := by
  refine ⟨?_, fun m => rfl, rfl, fun e => rfl⟩
  intro movies id
  unfold part000Get
  cases hf : findMovieById movies id with
  | some m =>
    left
    refine ⟨m, rfl, List.mem_of_find?_eq_some hf, ?_⟩
    have := List.find?_some hf
    simpa using this
  | none => right; rfl

/-- A character that is not JavaScript whitespace is not the space
character. -/
theorem ne_space_of_jsWs_false {c : Char} (h : jsWs c = false) : ¬(c = ' ') := by
  intro he
  subst he
  simp [jsWs] at h

/-- Dropping whitespace from a whitespace-free list is the identity. -/
theorem dropWhile_noWs (l : List Char) (h : ∀ c ∈ l, jsWs c = false) :
    l.dropWhile jsWs = l := by
  cases l with
  | nil => rfl
  | cons c cs => simp [List.dropWhile_cons, h c (List.mem_cons_self c cs)]

/-- Dropping whitespace from a list with a whitespace-free nonempty front is
the identity. -/
theorem dropWhile_front (l x : List Char) (hl : l ≠ [])
    (h : ∀ c ∈ l, jsWs c = false) : (l ++ x).dropWhile jsWs = l ++ x := by
  cases l with
  | nil => exact absurd rfl hl
  | cons c cs => simp [List.dropWhile_cons, h c (List.mem_cons_self c cs)]

/-- Trimming a whitespace-free list is the identity. -/
theorem jsTrim_noWs (t : List Char) (h : ∀ c ∈ t, jsWs c = false) :
    jsTrim t = t := by
  have h2 : t.reverse.dropWhile jsWs = t.reverse :=
    dropWhile_noWs _ (fun c hc => h c (List.mem_reverse.mp hc))
  unfold jsTrim
  rw [dropWhile_noWs t h, h2, List.reverse_reverse]

/-- Splitting a space-free list on the space character yields the singleton
piece. -/
theorem jsSplit_noSpace (t : List Char) (h : ∀ c ∈ t, jsWs c = false) :
    jsSplitSpace t = [t] := by
  induction t with
  | nil => rfl
  | cons c cs ih =>
    have hc : ¬(c = ' ') := ne_space_of_jsWs_false (h c (List.mem_cons_self c cs))
    have hcs := ih (fun d hd => h d (List.mem_cons_of_mem c hd))
    simp [jsSplitSpace, hc, hcs]

/-- Splitting a list ending in a space followed by a space-free piece yields
that piece as the final entry, with at least one entry before it. -/
theorem jsSplit_concat (a t : List Char) (ht : ∀ c ∈ t, jsWs c = false) :
    ∃ ps : List (List Char), ps ≠ [] ∧ jsSplitSpace (a ++ ' ' :: t) = ps ++ [t] := by
  induction a with
  | nil =>
    refine ⟨[[]], by simp, ?_⟩
    simp [jsSplitSpace, jsSplit_noSpace t ht]
  | cons c cs ih =>
    obtain ⟨ps, hne, hps⟩ := ih
    by_cases hc : c = ' '
    · exact ⟨[] :: ps, by simp, by simp [jsSplitSpace, hc, hps]⟩
    · cases ps with
      | nil => exact absurd rfl hne
      | cons p ps' =>
        refine ⟨(c :: p) :: ps', by simp, ?_⟩
        simp only [List.cons_append] at hps ⊢
        simp [jsSplitSpace, hc, hps]

/-- Trimming a value of the shape "prefix, space, space-free token" either
keeps a nonempty front before the space or reduces it to the token alone. -/
theorem jsTrim_concat (pre t : List Char) (htne : t ≠ [])
    (ht : ∀ c ∈ t, jsWs c = false) :
    (∃ a : List Char, jsTrim (pre ++ ' ' :: t) = a ++ ' ' :: t) ∨
      jsTrim (pre ++ ' ' :: t) = t := by
  have htrev : ∀ c ∈ t.reverse, jsWs c = false :=
    fun c hc => ht c (List.mem_reverse.mp hc)
  have htrevne : t.reverse ≠ [] := by simpa using htne
  unfold jsTrim
  rw [List.dropWhile_append]
  by_cases hpre : (pre.dropWhile jsWs).isEmpty
  · right
    rw [if_pos hpre]
    have hsp : (' ' :: t).dropWhile jsWs = t.dropWhile jsWs := by
      simp [List.dropWhile_cons, jsWs]
    rw [hsp, dropWhile_noWs t ht, dropWhile_noWs _ htrev, List.reverse_reverse]
  · left
    rw [if_neg hpre]
    refine ⟨pre.dropWhile jsWs, ?_⟩
    rw [List.reverse_append, List.reverse_cons, List.append_assoc,
      dropWhile_front _ _ htrevne htrev]
    simp [List.reverse_append]

/-- C9 counterexample: with a tab separating the scheme label from the token,
the middleware's extraction — which splits on the space character only —
returns the whole carrier value, while splitting on whitespace as the claim
states would return the final token "T". -/
theorem extractToken_tab_cex :
    extractToken (String.toList "Bearer\tT") = String.toList "Bearer\tT" ∧
    specExtractToken (String.toList "Bearer\tT") = String.toList "T" ∧
    extractToken (String.toList "Bearer\tT")
      ≠ specExtractToken (String.toList "Bearer\tT") := by
  refine ⟨by decide, by decide, by decide⟩

/-- C9 amended: the raw carrier value is trimmed and split on the space
character (not on arbitrary whitespace); a whitespace-free token is returned
unchanged, and any prefix followed by a space yields the final token, so a
scheme label such as "Bearer" separated by spaces is stripped. -/
theorem extractToken_space_split_amended :
    (∀ t : List Char, (∀ c ∈ t, jsWs c = false) → extractToken t = t) ∧
    (∀ (pre t : List Char), t ≠ [] → (∀ c ∈ t, jsWs c = false) →
        extractToken (pre ++ ' ' :: t) = t) := by
  constructor
  · intro t h
    unfold extractToken
    rw [jsTrim_noWs t h, jsSplit_noSpace t h]
    rfl
  · intro pre t htne ht
    unfold extractToken
    rcases jsTrim_concat pre t htne ht with ⟨a, ha⟩ | ha
    · obtain ⟨ps, hne, hps⟩ := jsSplit_concat a t ht
      rw [ha, hps]
      have hlen : (ps ++ [t]).length > 1 := by
        rcases ps with _ | ⟨q, qs⟩
        · exact absurd rfl hne
        · simp
      rw [if_pos hlen, List.getLastD_eq_getLast?, List.getLast?_concat]
      rfl
    · rw [ha, jsSplit_noSpace t ht]
      rfl

/-- C9 witness: the scheme-prefixed carrier "Bearer T" yields the token
"T". -/
theorem extractToken_space_split_amended_witness :
    (['T'] : List Char) ≠ [] ∧ (∀ c ∈ (['T'] : List Char), jsWs c = false) ∧
    extractToken (String.toList "Bearer" ++ ' ' :: ['T']) = ['T'] :=
  ⟨by decide, by decide,
    extractToken_space_split_amended.2 (String.toList "Bearer") ['T']
      (by decide) (by decide)⟩

end Api0
